import Mathlib

/-!
Shallow embedding of the DASHTASK data-processing core.

A pandas `DataFrame` of gapminder records is modelled as a `List Row`
(columns: country, continent, year, pop, gdpPercap, lifeExp); the frames
produced by `fill_missing_data` additionally carry the imputation metadata
columns, modelled by `OutRow` (`data_source` is `none` on rows where the
code never assigns that column). Boolean-mask indexing `df[mask]` is
`List.filter`, `pd.concat` is list append / flatten, column assignment on a
(copied) frame is `List.map` updating the field, `sorted(xs.unique())` is
a stable ascending sort of `List.dedup`, and Python's `max` on a non-empty list is
`List.max?` behind the non-emptiness guard.
-/

namespace DashTask

/-- One record of the raw dataset (one row of the gapminder CSV). -/
structure Row where
  country : String
  continent : String
  year : Int
  pop : Int
  gdpPercap : Int
  lifeExp : Int
deriving Repr, DecidableEq

/-- A row of the frame returned by `fill_missing_data`: a `Row` plus the
imputation-metadata columns added by the code. `data_source` is `none` on
rows where the code never assigns the `data_source` column. -/
structure OutRow where
  country : String
  continent : String
  year : Int
  pop : Int
  gdpPercap : Int
  lifeExp : Int
  is_imputed : Bool
  original_year : Int
  data_source : Option String
deriving Repr, DecidableEq

/-- Embeds `data_processing.add_imputation_metadata`: sets the `is_imputed`
and `original_year` columns on every row of the frame (the frame it receives
is always a fresh copy, so the column writes are modelled as a map producing
`OutRow`s; `data_source` is untouched, hence `none`). -/
def add_imputation_metadata (data : List Row) (is_imputed : Bool)
    (original_year : Int) : List OutRow :=
  data.map (fun r =>
    { country := r.country, continent := r.continent, year := r.year,
      pop := r.pop, gdpPercap := r.gdpPercap, lifeExp := r.lifeExp,
      is_imputed := is_imputed, original_year := original_year,
      data_source := none })

/-- Embeds `data_processing.get_country_data_for_year`:
`country_data[country_data['year'] == target_year].copy()`. -/
def get_country_data_for_year (country_data : List Row) (target_year : Int) :
    List Row :=
  country_data.filter (fun r => r.year == target_year)

/-- Embeds `data_processing.get_previous_year_data`. `available_years` is
`sorted(country_data['year'].unique())`; Python's guarded
`if not previous_years: return empty` followed by `max(previous_years)` is
the match on `previous_years.max?` (which is `none` exactly on the empty
list). Column assignments on the copied frame `latest_data` are maps, in
the source's order: imputation metadata, then `data_source`, then the
`year` overwrite. (`sorted` is modelled by a stable ascending sort.) -/
def get_previous_year_data (country_data : List Row) (selected_year : Int) :
    List OutRow :=
  let available_years :=
    ((country_data.map (fun r => r.year)).dedup).insertionSort (fun a b => a ≤ b)
  let previous_years := available_years.filter (fun t => decide (t < selected_year))
  match previous_years.max? with
  | none => []
  | some latest_available_year =>
    let latest_data := country_data.filter (fun r => r.year == latest_available_year)
    let latest_data := add_imputation_metadata latest_data true latest_available_year
    let latest_data := latest_data.map (fun r =>
      { r with data_source := some ("Данные за " ++ toString latest_available_year) })
    let latest_data := latest_data.map (fun r => { r with year := selected_year })
    latest_data

/-- Embeds `data_processing.fill_missing_data`: the `for country in countries`
loop accumulating `result_records` (a list of frames) is a fold, and the
final `pd.concat(result_records, ignore_index=True)` (or the empty frame when
nothing was collected) is `List.flatten`. -/
def fill_missing_data (dataframe : List Row) (selected_year : Int)
    (countries : List String) : List OutRow :=
  (countries.foldl (fun result_records country =>
      let country_data := dataframe.filter (fun r => r.country == country)
      let year_data := get_country_data_for_year country_data selected_year
      if year_data.isEmpty then
        let previous_year_data := get_previous_year_data country_data selected_year
        if previous_year_data.isEmpty then result_records
        else result_records ++ [previous_year_data]
      else
        result_records ++ [add_imputation_metadata year_data false selected_year])
    []).flatten

/-- Embeds the inline `fill_missing_data` of `app.py`: same loop but the
accumulated `result_df` is concatenated row-wise at every iteration instead
of once at the end, the presence test is `len(year_data) > 0`, and the
metadata columns are assigned inline (`is_imputed`, `original_year`, and for
the imputed branch also `data_source`, then the `year` overwrite). -/
def fill_missing_data_app (dataframe : List Row) (selected_year : Int)
    (countries : List String) : List OutRow :=
  countries.foldl (fun result_df country =>
    let country_data := dataframe.filter (fun r => r.country == country)
    let year_data := country_data.filter (fun r => r.year == selected_year)
    if year_data.length > 0 then
      let year_data := year_data.map (fun r =>
        ({ country := r.country, continent := r.continent, year := r.year,
           pop := r.pop, gdpPercap := r.gdpPercap, lifeExp := r.lifeExp,
           is_imputed := false, original_year := selected_year,
           data_source := none } : OutRow))
      result_df ++ year_data
    else
      let available_years :=
        ((country_data.map (fun r => r.year)).dedup).insertionSort (fun a b => a ≤ b)
      let previous_years := available_years.filter (fun t => decide (t < selected_year))
      match previous_years.max? with
      | none => result_df
      | some latest_available_year =>
        let latest_data := country_data.filter (fun r => r.year == latest_available_year)
        let latest_data := latest_data.map (fun r =>
          ({ country := r.country, continent := r.continent, year := r.year,
             pop := r.pop, gdpPercap := r.gdpPercap, lifeExp := r.lifeExp,
             is_imputed := true, original_year := latest_available_year,
             data_source := some ("Данные за " ++ toString latest_available_year) } : OutRow))
        let latest_data := latest_data.map (fun r => { r with year := selected_year })
        result_df ++ latest_data)
    []

/-- State-passing embedding of `data_processing.fill_missing_data` for the
frame-effect question: the first component threads the caller's `dataframe`
object through the loop. Pandas boolean-mask indexing returns a fresh frame
and every frame handed to a column assignment is first `.copy()`-ed
(`get_country_data_for_year` and `get_previous_year_data` both call
`.copy()`), so no step writes through to the caller's frame: each iteration
passes `dataframe` on unchanged, which is exactly what the source does. -/
def fill_missing_data_mut (dataframe : List Row) (selected_year : Int)
    (countries : List String) : List Row × List OutRow :=
  let st := countries.foldl (fun (st : List Row × List (List OutRow)) country =>
      let dataframe := st.1
      let country_data := dataframe.filter (fun r => r.country == country)
      let year_data := get_country_data_for_year country_data selected_year
      if year_data.isEmpty then
        let previous_year_data := get_previous_year_data country_data selected_year
        if previous_year_data.isEmpty then (dataframe, st.2)
        else (dataframe, st.2 ++ [previous_year_data])
      else
        (dataframe, st.2 ++ [add_imputation_metadata year_data false selected_year]))
    (dataframe, [])
  (st.1, st.2.flatten)

/-- Embeds `data_processing.load_data`. The network fetch/parse
(`pd.read_csv(data_url)`) is an oracle: `some d` when the source yields the
frame `d`, `none` when the fetch or parse fails. The function has no
`try/except`, so a failure propagates to the caller (`Except.error`);
`callbacks.register_callbacks` calls it with no handler either. -/
def load_data (fetch : Option (List Row)) : Except Unit (List Row) :=
  match fetch with
  | some d => Except.ok d
  | none => Except.error ()

/-- The fallback frame built in the `except` branch of the module-level
loader in `app.py` (one synthetic record). -/
def fallback_df : List Row :=
  [{ country := "Example", continent := "Example", year := 2007,
     pop := 1000000, gdpPercap := 5000, lifeExp := 70 }]

/-- Embeds the module-level `try/except` loader of `app.py` (lines 18-32):
on fetch/parse failure the exception is caught and `fallback_df` is
substituted, so the caller always receives a frame. -/
def app_df (fetch : Option (List Row)) : List Row :=
  match fetch with
  | some d => d
  | none => fallback_df

/-! Helper definitions used only by the proofs. -/

/-- The rows `fill_missing_data` collects for one country of the loop:
either the country's records at the selected year with the non-imputed
metadata, or the result of `get_previous_year_data`. -/
def country_rows (dataframe : List Row) (selected_year : Int)
    (country : String) : List OutRow :=
  let country_data := dataframe.filter (fun r => r.country == country)
  let year_data := get_country_data_for_year country_data selected_year
  if year_data.isEmpty then get_previous_year_data country_data selected_year
  else add_imputation_metadata year_data false selected_year

/-- The `previous_years` list computed inside `get_previous_year_data` (and
inside the inline variant of `app.py`): the sorted distinct years of the
country's records that are strictly below the selected year. -/
def prev_years (country_data : List Row) (selected_year : Int) : List Int :=
  (((country_data.map (fun r => r.year)).dedup).insertionSort
      (fun a b => a ≤ b)).filter (fun t => decide (t < selected_year))

/-- The transform `get_previous_year_data` applies to each record of the
closest previous year `m`: metadata `is_imputed := true`,
`original_year := m`, the `data_source` annotation, and the `year` field
overwritten with the selected year `y`. -/
def imputedRow (m y : Int) (r : Row) : OutRow :=
  { country := r.country, continent := r.continent, year := y,
    pop := r.pop, gdpPercap := r.gdpPercap, lifeExp := r.lifeExp,
    is_imputed := true, original_year := m,
    data_source := some ("Данные за " ++ toString m) }

/-- The transform applied to a record found at the selected year itself:
only the metadata columns are added, nothing else changes. -/
def plainRow (y : Int) (r : Row) : OutRow :=
  { country := r.country, continent := r.continent, year := r.year,
    pop := r.pop, gdpPercap := r.gdpPercap, lifeExp := r.lifeExp,
    is_imputed := false, original_year := y, data_source := none }

/-! Concrete datasets used in counterexamples and witnesses. -/

/-- The spec's scenario dataset: A has records at 2000 and 2005, B at 2005. -/
def dsScenario : List Row :=
  [{ country := "A", continent := "X", year := 2000, pop := 10, gdpPercap := 1, lifeExp := 1 },
   { country := "A", continent := "X", year := 2005, pop := 20, gdpPercap := 2, lifeExp := 2 },
   { country := "B", continent := "X", year := 2005, pop := 5, gdpPercap := 3, lifeExp := 3 }]

/-- A dataset holding two records for entity A at the same year 2005
(the data-quality edge case of the spec). -/
def dsDup : List Row :=
  [{ country := "A", continent := "X", year := 2005, pop := 1, gdpPercap := 1, lifeExp := 1 },
   { country := "A", continent := "X", year := 2005, pop := 2, gdpPercap := 2, lifeExp := 2 }]

/-- Entity A with records at years 2000, 2003 and 2005 (the spec's
closest-prior-year example for target year 2007). -/
def dsPrior : List Row :=
  [{ country := "A", continent := "X", year := 2000, pop := 1, gdpPercap := 1, lifeExp := 1 },
   { country := "A", continent := "X", year := 2003, pop := 2, gdpPercap := 2, lifeExp := 2 },
   { country := "A", continent := "X", year := 2005, pop := 3, gdpPercap := 3, lifeExp := 3 }]

/-! Proof layer: shared lemmas about the embedded functions. -/

/-- Membership in `prev_years`: exactly the years of the country's records
that lie strictly below the selected year. -/
theorem mem_prev_years {country_data : List Row} {selected_year t : Int} :
    t ∈ prev_years country_data selected_year ↔
      (∃ r ∈ country_data, r.year = t) ∧ t < selected_year := by
  simp [prev_years, List.mem_filter, List.mem_insertionSort, List.mem_dedup,
    List.mem_map]

/-- Specialisation of `List.max?_eq_some_iff` to integers. -/
theorem int_max?_eq_some_iff {l : List Int} {a : Int} :
    l.max? = some a ↔ a ∈ l ∧ ∀ b ∈ l, b ≤ a := by
  have anti : Std.Antisymm ((· : Int) ≤ ·) := ⟨fun h1 h2 => le_antisymm h1 h2⟩
  exact List.max?_eq_some_iff (fun x => le_refl x) (fun x y => max_choice x y)
    (fun x y z => max_le_iff)

/-- When the country has no year strictly below the selected one,
`get_previous_year_data` returns the empty frame. -/
theorem gpy_none (cd : List Row) (y : Int) (h : (prev_years cd y).max? = none) :
    get_previous_year_data cd y = [] := by
  have h' : ((((cd.map (fun r => r.year)).dedup).insertionSort
      (fun a b => a ≤ b)).filter (fun t => decide (t < y))).max? = none := h
  simp only [get_previous_year_data]
  rw [h']

/-- When the maximal previous year is `m`, `get_previous_year_data` returns
the country's records at `m`, each transformed by `imputedRow m y`. -/
theorem gpy_some (cd : List Row) (y m : Int)
    (h : (prev_years cd y).max? = some m) :
    get_previous_year_data cd y
      = (cd.filter (fun r => r.year == m)).map (imputedRow m y) := by
  have h' : ((((cd.map (fun r => r.year)).dedup).insertionSort
      (fun a b => a ≤ b)).filter (fun t => decide (t < y))).max? = some m := h
  simp only [get_previous_year_data]
  rw [h']
  simp only [add_imputation_metadata, List.map_map]
  rfl

/-- Every row produced by `get_previous_year_data` stems from a record of
the country frame it was given, and keeps that record's country. -/
theorem gpy_country {cd : List Row} {y : Int} {r : OutRow}
    (h : r ∈ get_previous_year_data cd y) : ∃ s ∈ cd, r.country = s.country := by
  cases hm : (prev_years cd y).max? with
  | none => rw [gpy_none cd y hm] at h; cases h
  | some m =>
    rw [gpy_some cd y m hm] at h
    obtain ⟨s, hs, rfl⟩ := List.mem_map.mp h
    exact ⟨s, (List.mem_filter.mp hs).1, rfl⟩

/-- Rows produced by `add_imputation_metadata` keep their record's country. -/
theorem meta_country {data : List Row} {b : Bool} {oy : Int} {r : OutRow}
    (h : r ∈ add_imputation_metadata data b oy) :
    ∃ s ∈ data, r.country = s.country := by
  obtain ⟨s, hs, rfl⟩ := List.mem_map.mp h
  exact ⟨s, hs, rfl⟩

/-- When the country has records at the selected year, its loop iteration
emits exactly those records with the non-imputed metadata. -/
theorem country_rows_present (dataframe : List Row) (selected_year : Int)
    (country : String)
    (h : (dataframe.filter (fun r => r.country == country)).filter
        (fun r => r.year == selected_year) ≠ []) :
    country_rows dataframe selected_year country
      = add_imputation_metadata
          ((dataframe.filter (fun r => r.country == country)).filter
            (fun r => r.year == selected_year)) false selected_year := by
  simp only [country_rows, get_country_data_for_year]
  rw [if_neg (by simpa [List.isEmpty_iff] using h)]

/-- When the country has no record at the selected year, its loop iteration
emits whatever `get_previous_year_data` finds. -/
theorem country_rows_absent (dataframe : List Row) (selected_year : Int)
    (country : String)
    (h : (dataframe.filter (fun r => r.country == country)).filter
        (fun r => r.year == selected_year) = []) :
    country_rows dataframe selected_year country
      = get_previous_year_data (dataframe.filter (fun r => r.country == country))
          selected_year := by
  simp only [country_rows, get_country_data_for_year]
  rw [if_pos (by simpa [List.isEmpty_iff] using h)]

/-- Every row the loop iteration for `country` emits carries that country. -/
theorem country_rows_country {dataframe : List Row} {selected_year : Int}
    {country : String} {r : OutRow}
    (h : r ∈ country_rows dataframe selected_year country) :
    r.country = country := by
  by_cases hyd : (dataframe.filter (fun r => r.country == country)).filter
      (fun r => r.year == selected_year) = []
  · rw [country_rows_absent dataframe selected_year country hyd] at h
    obtain ⟨s, hs, hr⟩ := gpy_country h
    have hc := (List.mem_filter.mp hs).2
    rw [hr]
    exact eq_of_beq hc
  · rw [country_rows_present dataframe selected_year country hyd] at h
    obtain ⟨s, hs, hr⟩ := meta_country h
    have hc := (List.mem_filter.mp (List.mem_filter.mp hs).1).2
    rw [hr]
    exact eq_of_beq hc

/-- One iteration of the `fill_missing_data` loop extends the flattened
accumulator by exactly `country_rows` of the country it handles. -/
theorem fill_step_cases (dataframe : List Row) (selected_year : Int)
    (acc : List (List OutRow)) (country : String) :
    (if (get_country_data_for_year (dataframe.filter (fun r => r.country == country))
          selected_year).isEmpty then
       if (get_previous_year_data (dataframe.filter (fun r => r.country == country))
            selected_year).isEmpty then acc
       else acc ++ [get_previous_year_data
              (dataframe.filter (fun r => r.country == country)) selected_year]
     else acc ++ [add_imputation_metadata
            (get_country_data_for_year (dataframe.filter (fun r => r.country == country))
              selected_year) false selected_year]).flatten
    = acc.flatten ++ country_rows dataframe selected_year country := by
  by_cases h1 : (get_country_data_for_year
      (dataframe.filter (fun r => r.country == country)) selected_year).isEmpty
  · by_cases h2 : (get_previous_year_data
        (dataframe.filter (fun r => r.country == country)) selected_year).isEmpty
    · rw [if_pos h1, if_pos h2]
      have hrows : country_rows dataframe selected_year country = [] := by
        rw [country_rows_absent dataframe selected_year country
          (by simpa [get_country_data_for_year, List.isEmpty_iff] using h1)]
        exact List.isEmpty_iff.mp h2
      rw [hrows, List.append_nil]
    · rw [if_pos h1, if_neg h2, List.flatten_append,
        country_rows_absent dataframe selected_year country
          (by simpa [get_country_data_for_year, List.isEmpty_iff] using h1)]
      simp only [List.flatten_cons, List.flatten_nil, List.append_nil]
  · rw [if_neg h1, List.flatten_append,
      country_rows_present dataframe selected_year country
        (by simpa [get_country_data_for_year, List.isEmpty_iff] using h1)]
    simp only [List.flatten_cons, List.flatten_nil, List.append_nil]
    rfl

/-- The `fill_missing_data` fold, flattened, appends the per-country blocks
to the flattened accumulator. -/
theorem fill_foldl_aux (dataframe : List Row) (selected_year : Int)
    (countries : List String) : ∀ acc : List (List OutRow),
    (countries.foldl (fun result_records country =>
        let country_data := dataframe.filter (fun r => r.country == country)
        let year_data := get_country_data_for_year country_data selected_year
        if year_data.isEmpty then
          let previous_year_data := get_previous_year_data country_data selected_year
          if previous_year_data.isEmpty then result_records
          else result_records ++ [previous_year_data]
        else
          result_records ++ [add_imputation_metadata year_data false selected_year])
      acc).flatten
    = acc.flatten
      ++ (countries.map (country_rows dataframe selected_year)).flatten := by
  induction countries with
  | nil => intro acc; simp
  | cons country countries ih =>
    intro acc
    rw [List.foldl_cons, ih, List.map_cons, List.flatten_cons, ← List.append_assoc]
    exact congrArg
      (fun t => t ++ (countries.map (country_rows dataframe selected_year)).flatten)
      (fill_step_cases dataframe selected_year acc country)

/-- `fill_missing_data` is the concatenation, in the order of the `countries`
list, of the per-country blocks `country_rows`. -/
theorem fill_eq_flatten (dataframe : List Row) (selected_year : Int)
    (countries : List String) :
    fill_missing_data dataframe selected_year countries
      = (countries.map (country_rows dataframe selected_year)).flatten := by
  have h : fill_missing_data dataframe selected_year countries
      = List.flatten ([] : List (List OutRow))
        ++ (countries.map (country_rows dataframe selected_year)).flatten :=
    fill_foldl_aux dataframe selected_year countries []
  simpa using h

/-- Restricting a per-country block to its own country keeps it intact. -/
theorem country_rows_filter_self (dataframe : List Row) (selected_year : Int)
    (country : String) :
    (country_rows dataframe selected_year country).filter
        (fun r => r.country == country)
      = country_rows dataframe selected_year country :=
  List.filter_eq_self.mpr fun r hr => by
    simp [country_rows_country hr]

/-- Restricting a per-country block to a different country empties it. -/
theorem country_rows_filter_ne (dataframe : List Row) (selected_year : Int)
    {country c : String} (hne : country ≠ c) :
    (country_rows dataframe selected_year country).filter (fun r => r.country == c)
      = [] :=
  List.filter_eq_nil_iff.mpr fun r hr => by
    simp [country_rows_country hr, hne]

/-- The rows `fill_missing_data` emits for a country occurring exactly once
in the entity list are exactly that country's block. -/
theorem filter_fill_of_count_one (dataframe : List Row) (selected_year : Int)
    (countries : List String) (c : String) (hc : countries.count c = 1) :
    (fill_missing_data dataframe selected_year countries).filter
        (fun r => r.country == c)
      = country_rows dataframe selected_year c := by
  rw [fill_eq_flatten, List.filter_flatten, List.map_map]
  induction countries with
  | nil => simp at hc
  | cons country countries ih =>
    by_cases hec : country = c
    · subst hec
      have hnot : country ∉ countries := by
        rw [List.count_cons_self] at hc
        exact List.count_eq_zero.mp (Nat.succ_injective hc)
      rw [List.map_cons, List.flatten_cons, Function.comp_apply,
        country_rows_filter_self]
      have hnil : ((countries.map
          ((fun l => l.filter (fun r => r.country == country))
            ∘ country_rows dataframe selected_year))).flatten = [] := by
        rw [List.flatten_eq_nil_iff]
        intro l hl
        obtain ⟨c', hc', rfl⟩ := List.mem_map.mp hl
        exact country_rows_filter_ne dataframe selected_year
          (fun he => hnot (he ▸ hc'))
      rw [hnil, List.append_nil]
    · rw [List.count_cons_of_ne (fun he => hec he.symm)] at hc
      rw [List.map_cons, List.flatten_cons, Function.comp_apply,
        country_rows_filter_ne dataframe selected_year hec, List.nil_append]
      exact ih hc

/-- The maximum of `prev_years` is `m` when the country has a record at
`m < y` and every record year below `y` is at most `m`. -/
theorem prev_years_max (cd : List Row) (y m : Int)
    (hmem : ∃ r ∈ cd, r.year = m) (hlt : m < y)
    (hmax : ∀ s ∈ cd, s.year < y → s.year ≤ m) :
    (prev_years cd y).max? = some m := by
  rw [int_max?_eq_some_iff]
  refine ⟨mem_prev_years.mpr ⟨hmem, hlt⟩, ?_⟩
  intro b hb
  obtain ⟨⟨r, hr, hry⟩, hby⟩ := mem_prev_years.mp hb
  have h1 : r.year < y := by rw [hry]; exact hby
  have h2 := hmax r hr h1
  rw [hry] at h2
  exact h2

/-- `prev_years` has no maximum when no record year lies below `y`. -/
theorem prev_years_none (cd : List Row) (y : Int)
    (h : ∀ r ∈ cd, ¬ r.year < y) :
    (prev_years cd y).max? = none := by
  rw [List.max?_eq_none_iff, List.eq_nil_iff_forall_not_mem]
  intro t ht
  obtain ⟨⟨r, hr, hrt⟩, hty⟩ := mem_prev_years.mp ht
  exact h r hr (by rw [hrt]; exact hty)

/-- An entity all of whose records lie strictly after the selected year
contributes an empty block. -/
theorem country_rows_nil_of_late (dataframe : List Row) (selected_year : Int)
    (c : String)
    (h : ∀ r ∈ dataframe, r.country = c → selected_year < r.year) :
    country_rows dataframe selected_year c = [] := by
  have hcd : ∀ r ∈ dataframe.filter (fun s => s.country == c),
      selected_year < r.year := fun r hr =>
    h r (List.mem_filter.mp hr).1 (eq_of_beq (List.mem_filter.mp hr).2)
  have hyd : (dataframe.filter (fun s => s.country == c)).filter
      (fun s => s.year == selected_year) = [] := by
    rw [List.filter_eq_nil_iff]
    intro r hr
    simp only [beq_iff_eq]
    exact fun he => lt_irrefl _ (he ▸ hcd r hr)
  rw [country_rows_absent _ _ _ hyd,
    gpy_none _ _ (prev_years_none _ _ (fun r hr => not_lt.mpr (le_of_lt (hcd r hr))))]

/-- When a country's block is empty, the output holds no row for it. -/
theorem filter_fill_nil (dataframe : List Row) (selected_year : Int)
    (countries : List String) (c : String)
    (hb : country_rows dataframe selected_year c = []) :
    (fill_missing_data dataframe selected_year countries).filter
        (fun s => s.country == c) = [] := by
  rw [fill_eq_flatten, List.filter_flatten, List.map_map,
    List.flatten_eq_nil_iff]
  intro l hl
  obtain ⟨c', hc', rfl⟩ := List.mem_map.mp hl
  by_cases he : c' = c
  · rw [Function.comp_apply, he, hb]
    rfl
  · exact country_rows_filter_ne dataframe selected_year he

/-- Under per-(entity, year) uniqueness of the dataset, at most one record
survives the country-and-year double filter. -/
theorem length_filter_le_one_of_key (l : List Row)
    (hk : l.Pairwise (fun a b => ¬(a.country = b.country ∧ a.year = b.year)))
    (c : String) (t : Int) :
    ((l.filter (fun r => r.country == c)).filter
      (fun r => r.year == t)).length ≤ 1 := by
  have hp : ((l.filter (fun r => r.country == c)).filter
      (fun r => r.year == t)).Pairwise
      (fun a b => ¬(a.country = b.country ∧ a.year = b.year)) :=
    (hk.filter _).filter _
  cases hfl : (l.filter (fun r => r.country == c)).filter (fun r => r.year == t) with
  | nil => simp
  | cons a tl =>
    cases tl with
    | nil => simp
    | cons b tl2 =>
      exfalso
      rw [hfl] at hp
      have hR := (List.pairwise_cons.mp hp).1 b (List.mem_cons_self b tl2)
      have ha : a ∈ (l.filter (fun r => r.country == c)).filter
          (fun r => r.year == t) := by
        rw [hfl]; exact List.mem_cons_self a (b :: tl2)
      have hb : b ∈ (l.filter (fun r => r.country == c)).filter
          (fun r => r.year == t) := by
        rw [hfl]; exact List.mem_cons_of_mem a (List.mem_cons_self b tl2)
      have hac : a.country = c := eq_of_beq (List.mem_filter.mp (List.mem_filter.mp ha).1).2
      have hat : a.year = t := eq_of_beq (List.mem_filter.mp ha).2
      have hbc : b.country = c := eq_of_beq (List.mem_filter.mp (List.mem_filter.mp hb).1).2
      have hbt : b.year = t := eq_of_beq (List.mem_filter.mp hb).2
      exact hR ⟨hac.trans hbc.symm, hat.trans hbt.symm⟩

/-- Under per-(entity, year) uniqueness, every per-country block holds at
most one row. -/
theorem country_rows_length_le_one (dataframe : List Row) (selected_year : Int)
    (c : String)
    (hk : dataframe.Pairwise (fun a b => ¬(a.country = b.country ∧ a.year = b.year))) :
    (country_rows dataframe selected_year c).length ≤ 1 := by
  by_cases hyd : (dataframe.filter (fun s => s.country == c)).filter
      (fun s => s.year == selected_year) = []
  · rw [country_rows_absent _ _ _ hyd]
    cases hm : (prev_years (dataframe.filter (fun s => s.country == c))
        selected_year).max? with
    | none => rw [gpy_none _ _ hm]; simp
    | some m =>
      rw [gpy_some _ _ _ hm, List.length_map]
      exact length_filter_le_one_of_key dataframe hk c m
  · rw [country_rows_present _ _ _ hyd]
    have : (add_imputation_metadata ((dataframe.filter (fun s => s.country == c)).filter
        (fun s => s.year == selected_year)) false selected_year).length
        = ((dataframe.filter (fun s => s.country == c)).filter
            (fun s => s.year == selected_year)).length := by
      simp [add_imputation_metadata]
    rw [this]
    exact length_filter_le_one_of_key dataframe hk c selected_year

/-- Summed over a duplicate-free entity list, the per-entity row count of
the output is at most one. -/
theorem countP_fill_aux (dataframe : List Row) (selected_year : Int) (c : String)
    (hk : dataframe.Pairwise (fun a b => ¬(a.country = b.country ∧ a.year = b.year))) :
    ∀ countries : List String, countries.Nodup →
      ((countries.map ((List.countP (fun r => r.country == c))
        ∘ country_rows dataframe selected_year)).sum ≤ 1) := by
  intro countries
  induction countries with
  | nil => intro _; simp
  | cons country countries ih =>
    intro hnd
    obtain ⟨hnot, hnd'⟩ := List.nodup_cons.mp hnd
    rw [List.map_cons, List.sum_cons]
    simp only [Function.comp_apply]
    by_cases hec : country = c
    · subst hec
      have h1 : List.countP (fun r => r.country == country)
          (country_rows dataframe selected_year country) ≤ 1 := by
        rw [List.countP_eq_length_filter, country_rows_filter_self]
        exact country_rows_length_le_one dataframe selected_year country hk
      have h2 : (countries.map ((List.countP (fun r => r.country == country))
          ∘ country_rows dataframe selected_year)).sum = 0 := by
        apply List.sum_eq_zero
        intro x hx
        obtain ⟨c', hc', rfl⟩ := List.mem_map.mp hx
        rw [Function.comp_apply, List.countP_eq_length_filter,
          @country_rows_filter_ne dataframe selected_year c' country
            (fun he => hnot (he ▸ hc'))]
        rfl
      rw [h2]
      simpa using h1
    · have h1 : List.countP (fun r => r.country == c)
          (country_rows dataframe selected_year country) = 0 := by
        rw [List.countP_eq_length_filter,
          country_rows_filter_ne dataframe selected_year hec]
        rfl
      rw [h1, Nat.zero_add]
      exact ih hnd'

/-- The state-passing loop threads the caller's frame through unchanged and
accumulates exactly what the pure loop accumulates. -/
theorem fill_mut_aux (dataframe : List Row) (selected_year : Int)
    (countries : List String) : ∀ acc : List (List OutRow),
    countries.foldl (fun (st : List Row × List (List OutRow)) country =>
        let dataframe := st.1
        let country_data := dataframe.filter (fun r => r.country == country)
        let year_data := get_country_data_for_year country_data selected_year
        if year_data.isEmpty then
          let previous_year_data := get_previous_year_data country_data selected_year
          if previous_year_data.isEmpty then (dataframe, st.2)
          else (dataframe, st.2 ++ [previous_year_data])
        else
          (dataframe, st.2 ++ [add_imputation_metadata year_data false selected_year]))
      (dataframe, acc)
    = (dataframe, countries.foldl (fun result_records country =>
        let country_data := dataframe.filter (fun r => r.country == country)
        let year_data := get_country_data_for_year country_data selected_year
        if year_data.isEmpty then
          let previous_year_data := get_previous_year_data country_data selected_year
          if previous_year_data.isEmpty then result_records
          else result_records ++ [previous_year_data]
        else
          result_records ++ [add_imputation_metadata year_data false selected_year])
      acc) := by
  induction countries with
  | nil => intro acc; rfl
  | cons country countries ih =>
    intro acc
    rw [List.foldl_cons, List.foldl_cons]
    by_cases h1 : (get_country_data_for_year
        (dataframe.filter (fun r => r.country == country)) selected_year).isEmpty
    · by_cases h2 : (get_previous_year_data
          (dataframe.filter (fun r => r.country == country)) selected_year).isEmpty
      · simp only [h1, h2, if_true]
        exact ih acc
      · simp only [h1, h2, if_true, if_false, Bool.false_eq_true]
        exact ih _
    · simp only [h1, if_false, Bool.false_eq_true]
      exact ih _

/-- One iteration of the `app.py` loop appends exactly the per-country block
to the accumulated frame. -/
theorem app_foldl_aux (dataframe : List Row) (selected_year : Int)
    (countries : List String) : ∀ acc : List OutRow,
    countries.foldl (fun result_df country =>
        let country_data := dataframe.filter (fun r => r.country == country)
        let year_data := country_data.filter (fun r => r.year == selected_year)
        if year_data.length > 0 then
          let year_data := year_data.map (fun r =>
            ({ country := r.country, continent := r.continent, year := r.year,
               pop := r.pop, gdpPercap := r.gdpPercap, lifeExp := r.lifeExp,
               is_imputed := false, original_year := selected_year,
               data_source := none } : OutRow))
          result_df ++ year_data
        else
          let available_years :=
            ((country_data.map (fun r => r.year)).dedup).insertionSort (fun a b => a ≤ b)
          let previous_years := available_years.filter (fun t => decide (t < selected_year))
          match previous_years.max? with
          | none => result_df
          | some latest_available_year =>
            let latest_data := country_data.filter (fun r => r.year == latest_available_year)
            let latest_data := latest_data.map (fun r =>
              ({ country := r.country, continent := r.continent, year := r.year,
                 pop := r.pop, gdpPercap := r.gdpPercap, lifeExp := r.lifeExp,
                 is_imputed := true, original_year := latest_available_year,
                 data_source := some ("Данные за " ++ toString latest_available_year) } : OutRow))
            let latest_data := latest_data.map (fun r => { r with year := selected_year })
            result_df ++ latest_data)
      acc
    = acc ++ (countries.map (country_rows dataframe selected_year)).flatten := by
  induction countries with
  | nil => intro acc; simp
  | cons country countries ih =>
    intro acc
    rw [List.foldl_cons, ih, List.map_cons, List.flatten_cons, ← List.append_assoc]
    congr 1
    by_cases hyd : (dataframe.filter (fun r => r.country == country)).filter
        (fun r => r.year == selected_year) = []
    · have hlen : ¬ ((dataframe.filter (fun r => r.country == country)).filter
          (fun r => r.year == selected_year)).length > 0 := by
        rw [hyd]; simp
      rw [country_rows_absent _ _ _ hyd]
      cases hm : (prev_years (dataframe.filter (fun r => r.country == country))
          selected_year).max? with
      | none =>
        rw [gpy_none _ _ hm, List.append_nil]
        simp only [if_neg hlen]
        have hm' : (((((dataframe.filter (fun r => r.country == country)).map
            (fun r => r.year)).dedup).insertionSort (fun a b => a ≤ b)).filter
              (fun t => decide (t < selected_year))).max? = none := hm
        rw [hm']
      | some m =>
        rw [gpy_some _ _ _ hm]
        simp only [if_neg hlen]
        have hm' : (((((dataframe.filter (fun r => r.country == country)).map
            (fun r => r.year)).dedup).insertionSort (fun a b => a ≤ b)).filter
              (fun t => decide (t < selected_year))).max? = some m := hm
        rw [hm']
        simp only [List.map_map]
        rfl
    · have hlen : ((dataframe.filter (fun r => r.country == country)).filter
          (fun r => r.year == selected_year)).length > 0 :=
        List.length_pos.mpr hyd
      rw [country_rows_present _ _ _ hyd]
      simp only [if_pos hlen]
      rfl

/-! Claim theorems. -/

/-- Claim C1, counterexample: with two records for entity A at the target
year, `fill_missing_data` emits two rows for A, so the output does not
contain at most one row per entity. -/
theorem fill_missing_data_at_most_one_cex :
    ¬ ((fill_missing_data dsDup 2005 ["A"]).countP
        (fun r => r.country == "A") ≤ 1) := by decide

/-- Claim C1 (amended): provided the entity list has no duplicates and the
dataset holds at most one record per (entity, year) pair, the output of
`fill_missing_data` contains at most one row per entity. -/
theorem fill_missing_data_at_most_one_per_entity (dataframe : List Row)
    (selected_year : Int) (countries : List String) (c : String)
    (hnd : countries.Nodup)
    (hk : dataframe.Pairwise (fun a b => ¬(a.country = b.country ∧ a.year = b.year))) :
    (fill_missing_data dataframe selected_year countries).countP
        (fun r => r.country == c) ≤ 1 := by
  rw [fill_eq_flatten, List.countP_flatten, List.map_map]
  exact countP_fill_aux dataframe selected_year c hk countries hnd

/-- Witness for C1 at the spec's scenario dataset. -/
theorem fill_missing_data_at_most_one_per_entity_wit :
    (fill_missing_data dsScenario 2005 ["A", "B"]).countP
        (fun r => r.country == "A") ≤ 1 :=
  fill_missing_data_at_most_one_per_entity dsScenario 2005 ["A", "B"] "A"
    (by decide) (by decide)

/-- Claim C2: an entity with no record at the target year whose record at
the maximal strictly-prior year `m` is unique is emitted as exactly that
record with `year` overwritten to the target year, `is_imputed := true` and
`original_year := m`. -/
theorem fill_missing_data_closest_prior_year (dataframe : List Row)
    (selected_year : Int) (countries : List String) (c : String) (m : Int) (r : Row)
    (hc : countries.count c = 1)
    (hnone : (dataframe.filter (fun s => s.country == c)).filter
        (fun s => s.year == selected_year) = [])
    (hm : (dataframe.filter (fun s => s.country == c)).filter
        (fun s => s.year == m) = [r])
    (hlt : m < selected_year)
    (hmax : ∀ s ∈ dataframe.filter (fun s => s.country == c),
        s.year < selected_year → s.year ≤ m) :
    (fill_missing_data dataframe selected_year countries).filter
        (fun s => s.country == c) = [imputedRow m selected_year r] := by
  have hrmem : r ∈ (dataframe.filter (fun s => s.country == c)).filter
      (fun s => s.year == m) := by
    rw [hm]; exact List.mem_cons_self r []
  have hmem : ∃ s ∈ dataframe.filter (fun s => s.country == c), s.year = m :=
    ⟨r, (List.mem_filter.mp hrmem).1, eq_of_beq (List.mem_filter.mp hrmem).2⟩
  rw [filter_fill_of_count_one dataframe selected_year countries c hc,
    country_rows_absent dataframe selected_year c hnone,
    gpy_some _ _ m (prev_years_max _ _ m hmem hlt hmax), hm]
  rfl

/-- Witness for C2 at the spec's years-2000-2003-2005, target-2007 example. -/
theorem fill_missing_data_closest_prior_year_wit :
    (fill_missing_data dsPrior 2007 ["A"]).filter (fun s => s.country == "A")
      = [imputedRow 2005 2007
          { country := "A", continent := "X", year := 2005,
            pop := 3, gdpPercap := 3, lifeExp := 3 }] :=
  fill_missing_data_closest_prior_year dsPrior 2007 ["A"] "A" 2005
    { country := "A", continent := "X", year := 2005,
      pop := 3, gdpPercap := 3, lifeExp := 3 }
    (by decide) (by decide) (by decide) (by decide) (by decide)

/-- Claim C3: an entity whose record at the target year is unique is emitted
as exactly that record, measures and `year` untouched, with
`is_imputed := false` and `original_year` equal to the target year, whether
or not earlier records exist. -/
theorem fill_missing_data_exact_match (dataframe : List Row)
    (selected_year : Int) (countries : List String) (c : String) (r : Row)
    (hc : countries.count c = 1)
    (hm : (dataframe.filter (fun s => s.country == c)).filter
        (fun s => s.year == selected_year) = [r]) :
    (fill_missing_data dataframe selected_year countries).filter
        (fun s => s.country == c) = [plainRow selected_year r] := by
  rw [filter_fill_of_count_one dataframe selected_year countries c hc,
    country_rows_present dataframe selected_year c
      (by rw [hm]; exact List.cons_ne_nil r []),
    hm]
  rfl

/-- Witness for C3: entity A of the scenario dataset has records at 2000 and
2005; at target 2005 its 2005 record is emitted unmodified. -/
theorem fill_missing_data_exact_match_wit :
    (fill_missing_data dsScenario 2005 ["A", "B"]).filter (fun s => s.country == "A")
      = [plainRow 2005
          { country := "A", continent := "X", year := 2005,
            pop := 20, gdpPercap := 2, lifeExp := 2 }] :=
  fill_missing_data_exact_match dsScenario 2005 ["A", "B"] "A"
    { country := "A", continent := "X", year := 2005,
      pop := 20, gdpPercap := 2, lifeExp := 2 }
    (by decide) (by decide)

/-- Claim C4: an entity all of whose records lie strictly after the target
year (in particular an absent entity) yields no output row, and when this
holds for every listed entity the whole result is the empty collection (the
embedded function is total, so no exception can arise). -/
theorem fill_missing_data_silent_omission (dataframe : List Row)
    (selected_year : Int) (countries : List String) (c : String) :
    ((∀ r ∈ dataframe, r.country = c → selected_year < r.year) →
      (fill_missing_data dataframe selected_year countries).filter
          (fun s => s.country == c) = [])
    ∧ ((∀ c' ∈ countries, ∀ r ∈ dataframe, r.country = c' → selected_year < r.year) →
      fill_missing_data dataframe selected_year countries = []) := by
  constructor
  · intro h
    exact filter_fill_nil dataframe selected_year countries c
      (country_rows_nil_of_late dataframe selected_year c h)
  · intro hall
    rw [fill_eq_flatten, List.flatten_eq_nil_iff]
    intro l hl
    obtain ⟨c', hc', rfl⟩ := List.mem_map.mp hl
    exact country_rows_nil_of_late dataframe selected_year c' (hall c' hc')

/-- Witness for C4 at the spec's target-1999 scenario. -/
theorem fill_missing_data_silent_omission_wit :
    (fill_missing_data dsScenario 1999 ["A", "B"]).filter
        (fun s => s.country == "A") = []
    ∧ fill_missing_data dsScenario 1999 ["A", "B"] = [] :=
  ⟨(fill_missing_data_silent_omission dsScenario 1999 ["A", "B"] "A").1 (by decide),
   (fill_missing_data_silent_omission dsScenario 1999 ["A", "B"] "A").2 (by decide)⟩

/-- Claim C5, counterexample: with two records for A at the chosen year the
code emits both records (pops 1 and 2), not only the first encountered
one. -/
theorem fill_missing_data_first_record_cex :
    (fill_missing_data dsDup 2005 ["A"]).map (fun r => r.pop) = [1, 2]
    ∧ ¬ ((fill_missing_data dsDup 2005 ["A"]).map (fun r => r.pop) = [1]) := by
  constructor <;> decide

/-- Claim C5 (amended): for an entity occurring once in the list,
`fill_missing_data` emits every record the dataset holds at the year chosen
for it (target year, or maximal prior year), in dataset order — not only
the first encountered record. -/
theorem fill_missing_data_emits_all_records_at_chosen_year (dataframe : List Row)
    (selected_year : Int) (countries : List String) (c : String)
    (hc : countries.count c = 1) :
    ((dataframe.filter (fun s => s.country == c)).filter
        (fun s => s.year == selected_year) ≠ [] →
      (fill_missing_data dataframe selected_year countries).filter
          (fun s => s.country == c)
        = ((dataframe.filter (fun s => s.country == c)).filter
            (fun s => s.year == selected_year)).map (plainRow selected_year))
    ∧ (∀ m : Int,
        (dataframe.filter (fun s => s.country == c)).filter
            (fun s => s.year == selected_year) = [] →
        (prev_years (dataframe.filter (fun s => s.country == c))
            selected_year).max? = some m →
        (fill_missing_data dataframe selected_year countries).filter
            (fun s => s.country == c)
          = ((dataframe.filter (fun s => s.country == c)).filter
              (fun s => s.year == m)).map (imputedRow m selected_year)) := by
  constructor
  · intro h
    rw [filter_fill_of_count_one dataframe selected_year countries c hc,
      country_rows_present dataframe selected_year c h]
    rfl
  · intro m hyd hm
    rw [filter_fill_of_count_one dataframe selected_year countries c hc,
      country_rows_absent dataframe selected_year c hyd,
      gpy_some _ _ m hm]

/-- Witness for C5 on the duplicate-records dataset: both records at 2005
are emitted. -/
theorem fill_missing_data_emits_all_records_at_chosen_year_wit :
    (fill_missing_data dsDup 2005 ["A"]).filter (fun s => s.country == "A")
      = ((dsDup.filter (fun s => s.country == "A")).filter
          (fun s => s.year == (2005 : Int))).map (plainRow 2005) :=
  (fill_missing_data_emits_all_records_at_chosen_year dsDup 2005 ["A"] "A"
    (by decide)).1 (by decide)

/-- Claim C6: `fill_missing_data` is deterministic — identical inputs give
identical output sequences. -/
theorem fill_missing_data_deterministic (df1 df2 : List Row) (y1 y2 : Int)
    (cs1 cs2 : List String) (hdf : df1 = df2) (hy : y1 = y2) (hcs : cs1 = cs2) :
    fill_missing_data df1 y1 cs1 = fill_missing_data df2 y2 cs2 := by
  rw [hdf, hy, hcs]

/-- Witness for C6 at the scenario dataset. -/
theorem fill_missing_data_deterministic_wit :
    fill_missing_data dsScenario 2005 ["A", "B"]
      = fill_missing_data dsScenario 2005 ["A", "B"] :=
  fill_missing_data_deterministic dsScenario dsScenario 2005 2005
    ["A", "B"] ["A", "B"] rfl rfl rfl

/-- Claim C7: the output of `fill_missing_data` is the concatenation, in the
order of the input entity list, of the per-entity blocks, and every row of
an entity's block carries that entity — so emitted entities appear in the
order induced by the entity list. -/
theorem fill_missing_data_output_order (dataframe : List Row)
    (selected_year : Int) (countries : List String) :
    fill_missing_data dataframe selected_year countries
        = (countries.map (country_rows dataframe selected_year)).flatten
    ∧ ∀ c : String, (country_rows dataframe selected_year c).all
        (fun r => r.country == c) = true :=
  ⟨fill_eq_flatten dataframe selected_year countries,
   fun c => List.all_eq_true.mpr (fun r hr => by
     simp [country_rows_country hr])⟩

/-- Claim C8: the state-passing embedding returns the caller's dataset
unchanged alongside the same output the pure function computes — the call
never mutates its dataset argument. -/
theorem fill_missing_data_no_mutation (dataframe : List Row)
    (selected_year : Int) (countries : List String) :
    (fill_missing_data_mut dataframe selected_year countries).1 = dataframe
    ∧ (fill_missing_data_mut dataframe selected_year countries).2
        = fill_missing_data dataframe selected_year countries := by
  have h := fill_mut_aux dataframe selected_year countries []
  exact ⟨congrArg Prod.fst h, congrArg (fun st => st.2.flatten) h⟩

/-- Claim C9, counterexample: a fetch/parse failure makes
`data_processing.load_data` return the error — it substitutes no fallback,
and its caller in `callbacks.py` installs no handler, so the failure
propagates. -/
theorem load_data_failure_cex : load_data none = Except.error () := rfl

/-- Claim C9 (amended): the module-level loader of `app.py` catches the
failure and substitutes the one-synthetic-record fallback frame, while
`data_processing.load_data` propagates the failure to its caller. -/
theorem loader_fallback_boundary :
    app_df none = fallback_df
    ∧ fallback_df ≠ []
    ∧ fallback_df.length = 1
    ∧ load_data none = Except.error () :=
  ⟨rfl, by decide, rfl, rfl⟩

/-- Claim C10: the module-level `fill_missing_data` of `data_processing.py`
and the inline variant of `app.py` agree on every input. -/
theorem fill_missing_data_app_equiv (dataframe : List Row)
    (selected_year : Int) (countries : List String) :
    fill_missing_data_app dataframe selected_year countries
      = fill_missing_data dataframe selected_year countries := by
  have h := app_foldl_aux dataframe selected_year countries []
  rw [fill_eq_flatten]
  exact h.trans (List.nil_append _)

end DashTask
